import Mathlib

/-!
Shallow embedding of the co-mindforest2 collaboration backend.

The repository holds two variants of the same edge worker:
* `src/unnamed/part_000` — the forking variant with per-user branches,
  embedded below in namespace `Forked`;
* `src/functions/collab.js` — the basic KV variant, embedded in `Basic`.

Each HTTP handler is embedded as a pure function on an explicit store.
The backing key-value store is value-semantic (`Store`), which matches the
observable behaviour of the JS code: every request round-trips the room
through JSON parsing and serialization, so persisted data has copy semantics
even where the in-memory JS code shares references.  Server time
(`Date.now()`), the ISO join timestamp, the random colour and the random id
suffix are explicit parameters.  Fields the JS code may leave `undefined`
are `Option`s, and JS string falsiness (`undefined` or `""`) is `falsyS`.
-/

/-- An opaque document snapshot.  The engine only ever looks at the
top-level `nodeMap` collection, to count nodes for summary display. -/
structure Snapshot where
  nodeMap : List (String × Nat)
deriving Repr, DecidableEq

/-- One entry of the `activeUsers` list of a room. -/
structure ActiveUser where
  id : String
  name : String
  color : Nat
  region : String
  joinedAt : String
  isHost : Bool
deriving Repr, DecidableEq

/-- A caller-supplied operation payload.  `userId`, `timestamp` and `opId`
model fields of those names the caller may have included in the payload;
the handlers spread the payload first and then write the server-assigned
`timestamp`, `userId` and `id`, so those three always override. -/
structure OpPayload where
  fields : List (String × String)
  userId : Option String
  timestamp : Option Nat
  opId : Option String
deriving Repr, DecidableEq

/-- A logged operation record as stored in `room.operations`. -/
structure Operation where
  fields : List (String × String)
  userId : String
  timestamp : Nat
  opId : String
deriving Repr, DecidableEq

/-- A per-user branch, one entry of `room.userBranches`. -/
structure UserBranch where
  snapshot : Option Snapshot
  lastUpdated : Nat
  userName : Option String
deriving Repr, DecidableEq

/-- A room document as persisted in the store. -/
structure Room where
  id : Option String
  name : Option String
  method : Option String
  createdBy : Option String
  createdByName : Option String
  snapshot : Option Snapshot
  userBranches : Option (List (String × UserBranch))
  activeUsers : Option (List ActiveUser)
  operations : Option (List Operation)
  lastUpdated : Nat
deriving Repr, DecidableEq

/-- The caller-supplied `roomData` object that `create_room` spreads into the
new room.  The fields the explicit room construction overwrites (snapshot,
userBranches, operations, lastUpdated) are omitted; everything else, in
particular `activeUsers`, flows through verbatim. -/
structure RoomData where
  id : Option String
  name : Option String
  method : Option String
  createdBy : Option String
  createdByName : Option String
  activeUsers : Option (List ActiveUser)
deriving Repr, DecidableEq

/-- Lookup in a JS-object-style association list (first match). -/
def alget {α : Type} (l : List (String × α)) (k : String) : Option α :=
  match l with
  | [] => none
  | (k2, v) :: t => if k2 = k then some v else alget t k

/-- Update of a JS-object-style association list: replace in place when the
key exists (JS objects keep insertion order for existing keys), append
otherwise. -/
def alput {α : Type} (l : List (String × α)) (k : String) (v : α) :
    List (String × α) :=
  match l with
  | [] => [(k, v)]
  | (k2, v2) :: t => if k2 = k then (k, v) :: t else (k2, v2) :: alput t k v

/-- The key-value store, keyed by room key, with value semantics. -/
abbrev Store := List (String × Room)

/-- Store read (`get`). -/
def Store.get (st : Store) (k : String) : Option Room := alget st k

/-- Store write (`put`), overwriting any existing value at the key. -/
def Store.put (st : Store) (k : String) (r : Room) : Store := alput st k r

/-- Store delete (`delete`), idempotent. -/
def Store.del (st : Store) (k : String) : Store :=
  match st with
  | [] => []
  | (k2, r) :: t => if k2 = k then Store.del t k else (k2, r) :: Store.del t k

/-- The `room:<id>` key convention. -/
def roomKey (roomId : String) : String := "room:" ++ roomId

/-- JS truthiness test of an optional string: `undefined` and `""` are
falsy. -/
def falsyS : Option String → Bool
  | none => true
  | some s => s.isEmpty

/-- JS `a || b` for an optional string `a` with default `b`. -/
def strOr (o : Option String) (d : String) : String :=
  match o with
  | none => d
  | some s => if s.isEmpty then d else s

/-- The default display name built from the first four characters of the
user id. -/
def defaultName (userId : String) : String := "用户" ++ userId.take 4

/-- The default active-user entry `join_room` builds when the caller
supplies no `userData`: derived name, random colour, fixed region, the ISO
join time, and `isHost = false`. -/
def defaultJoinUser (userId : String) (uN : Option String) (color : Nat)
    (iso : String) : ActiveUser :=
  { id := userId
    name := strOr uN (defaultName userId)
    color := color
    region := "bj"
    joinedAt := iso
    isHost := false }

/-- The record pushed onto `room.operations`: the caller payload spread
first, then the server-assigned `timestamp`, `userId` and
`id = op_<timestamp>_<suffix>`, which therefore override any fields of
those names in the payload. -/
def mkLoggedOp (p : OpPayload) (userId : String) (now : Nat) (sfx : String) :
    Operation :=
  { fields := p.fields
    userId := userId
    timestamp := now
    opId := "op_" ++ toString now ++ "_" ++ sfx }

/-- The operation-log size limit: after a push, when the log holds more than
100 entries it is cut to its last 50 (`operations.slice(-50)`). -/
def truncateOps (l : List Operation) : List Operation :=
  if 100 < l.length then l.drop (l.length - 50) else l

/-- Node count of a branch: the size of the top-level `nodeMap` of the snapshot,
or 0 when the branch has no snapshot. -/
def nodeCount (b : UserBranch) : Nat :=
  match b.snapshot with
  | some s => s.nodeMap.length
  | none => 0

/-- Request body of `create_room`. -/
structure CreateReq where
  roomId : Option String
  roomData : Option RoomData
  snapshot : Option Snapshot
  userId : Option String
  userName : Option String
deriving Repr, DecidableEq

/-- Request body of `join_room`. -/
structure JoinReq where
  roomId : Option String
  userId : Option String
  userName : Option String
  userData : Option ActiveUser
deriving Repr, DecidableEq

/-- Request body of `leave_room`. -/
structure LeaveReq where
  roomId : Option String
  userId : Option String
deriving Repr, DecidableEq

/-- Request body of `update_user_branch` (forking variant). -/
structure UpdateBranchReq where
  roomId : Option String
  userId : Option String
  snapshot : Option Snapshot
  operation : Option OpPayload
deriving Repr, DecidableEq

/-- Request body of `send_operation` (basic variant). -/
structure SendOpReq where
  roomId : Option String
  userId : Option String
  operation : Option OpPayload
deriving Repr, DecidableEq

/-- Outcome of `create_room`: empty body (400), missing params (400), or
the created room (200, persisted under its key). -/
inductive CreateOutcome where
  | emptyBody
  | missingParams
  | created (roomId : String) (room : Room)
deriving Repr, DecidableEq

/-- Whether a `create_room` outcome is a success. -/
def CreateOutcome.isCreated : CreateOutcome → Bool
  | .created _ _ => true
  | _ => false

/-- Outcome of `join_room`. -/
inductive JoinOutcome where
  | emptyBody
  | missingParams
  | notFound
  | joined (room : Room)
deriving Repr, DecidableEq

/-- Outcome of `update_user_branch` / `send_operation`. -/
inductive UpdateOutcome where
  | emptyBody
  | missingParams
  | notFound
  | updated (room : Room)
deriving Repr, DecidableEq

/-- Outcome of `get_room_info`. -/
inductive InfoOutcome where
  | missingRoomId
  | notFound
  | ok (room : Room)
deriving Repr, DecidableEq

/-- Per-user branch summary returned by `get_updates` / `get_room_info`. -/
structure BranchSummary where
  userName : Option String
  lastUpdated : Nat
  nodeCount : Nat
deriving Repr, DecidableEq

/-- Successful `get_updates` response body. -/
structure UpdatesResult where
  updates : List Operation
  branchSummaries : List (String × BranchSummary)
  users : List ActiveUser
  lastSync : Nat
deriving Repr, DecidableEq

/-- Outcome of `get_updates`; every response carries a fresh `lastSync`. -/
inductive UpdatesOutcome where
  | missingParams (lastSync : Nat)
  | notFound (lastSync : Nat)
  | ok (r : UpdatesResult)
deriving Repr, DecidableEq

namespace Forked

/-- `handleCreateRoom` of `src/unnamed/part_000`.  Validation rejects a
falsy `roomId`, `roomData`, `userId` or `snapshot`; on success the new room
spreads `roomData`, sets the host snapshot, one branch for the creator, an
empty operation log, and is persisted under `room:<roomId>`.  Note that
`activeUsers` is whatever `roomData` carries: the handler seeds no creator
entry. -/
def handleCreateRoom (st : Store) (req : Option CreateReq) (now : Nat) :
    Store × CreateOutcome :=
  match req with
  | none => (st, .emptyBody)
  | some r =>
    match r.roomId, r.roomData, r.userId, r.snapshot with
    | some roomId, some rd, some userId, some snap =>
      if roomId.isEmpty || userId.isEmpty then (st, .missingParams)
      else
        let room : Room :=
          { id := rd.id
            name := rd.name
            method := rd.method
            createdBy := rd.createdBy
            createdByName := rd.createdByName
            snapshot := some snap
            userBranches := some [(userId,
              { snapshot := some snap, lastUpdated := now,
                userName := r.userName })]
            activeUsers := rd.activeUsers
            operations := some []
            lastUpdated := now }
        (st.put (roomKey roomId) room, .created roomId room)
    | _, _, _, _ => (st, .missingParams)

/-- `handleJoinRoom` of the forking variant.  `now` is `Date.now()`,
`nowIso` the ISO join timestamp, `color` the random colour draw.  The
branch of the joiner is overwritten with the host snapshot of the room;
the active
user entry is appended only when no entry with that id exists. -/
def handleJoinRoom (st : Store) (req : Option JoinReq) (now : Nat)
    (nowIso : String) (color : Nat) : Store × JoinOutcome :=
  match req with
  | none => (st, .emptyBody)
  | some r =>
    match r.roomId, r.userId with
    | some roomId, some userId =>
      if roomId.isEmpty || userId.isEmpty then (st, .missingParams)
      else
        match st.get (roomKey roomId) with
        | none => (st, .notFound)
        | some room =>
          let branches := alput (room.userBranches.getD []) userId
            { snapshot := room.snapshot
              lastUpdated := now
              userName := some (strOr r.userName (defaultName userId)) }
          let newUser : ActiveUser :=
            match r.userData with
            | some d => d
            | none => defaultJoinUser userId r.userName color nowIso
          let au :=
            match room.activeUsers with
            | none => [newUser]
            | some l =>
              match l.findIdx? (fun u => u.id == userId) with
              | none => l ++ [newUser]
              | some _ => l
          let room2 : Room :=
            { room with
                userBranches := some branches
                activeUsers := some au
                lastUpdated := now }
          (st.put (roomKey roomId) room2, .joined room2)
    | _, _ => (st, .missingParams)

/-- `handleUpdateUserBranch` of the forking variant.  `sfx` is the random id
suffix.  Replaces the branch snapshot of the user wholesale; when an
operation
payload accompanies the call it is appended to the log (with server-assigned
fields) and the log is truncated past 100 entries. -/
def handleUpdateUserBranch (st : Store) (req : Option UpdateBranchReq)
    (now : Nat) (sfx : String) : Store × UpdateOutcome :=
  match req with
  | none => (st, .emptyBody)
  | some r =>
    match r.roomId, r.userId, r.snapshot with
    | some roomId, some userId, some snap =>
      if roomId.isEmpty || userId.isEmpty then (st, .missingParams)
      else
        match st.get (roomKey roomId) with
        | none => (st, .notFound)
        | some room =>
          let branches0 := room.userBranches.getD []
          let keptName :=
            strOr ((alget branches0 userId).bind (fun b => b.userName))
              (defaultName userId)
          let branches := alput branches0 userId
            { snapshot := some snap, lastUpdated := now,
              userName := some keptName }
          let ops :=
            match r.operation with
            | none => room.operations
            | some p =>
              some (truncateOps ((room.operations.getD []) ++
                [mkLoggedOp p userId now sfx]))
          let room2 : Room :=
            { room with
                userBranches := some branches
                operations := ops
                lastUpdated := now }
          (st.put (roomKey roomId) room2, .updated room2)
    | _, _, _ => (st, .missingParams)

/-- `handleGetUpdates` of the forking variant: operations newer than
`lastSync` and not authored by the caller, summaries of the other
branches, the active user list and a fresh `lastSync`. -/
def handleGetUpdates (st : Store) (roomId userId : Option String)
    (lastSync : Nat) (now : Nat) : UpdatesOutcome :=
  match roomId, userId with
  | some rid, some uid =>
    if rid.isEmpty || uid.isEmpty then .missingParams now
    else
      match st.get (roomKey rid) with
      | none => .notFound now
      | some room =>
        let updates := (room.operations.getD []).filter
          (fun op => decide (lastSync < op.timestamp) && op.userId != uid)
        let summaries := ((room.userBranches.getD []).filter
          (fun kv => kv.1 != uid)).map
          (fun kv => (kv.1,
            ({ userName := kv.2.userName
               lastUpdated := kv.2.lastUpdated
               nodeCount := nodeCount kv.2 } : BranchSummary)))
        .ok { updates := updates
              branchSummaries := summaries
              users := room.activeUsers.getD []
              lastSync := now }
  | _, _ => .missingParams now

/-- `handleGetRoomInfo`: `notFound` exactly when the room key is absent. -/
def handleGetRoomInfo (st : Store) (roomId : Option String) : InfoOutcome :=
  match roomId with
  | none => .missingRoomId
  | some rid =>
    if rid.isEmpty then .missingRoomId
    else
      match st.get (roomKey rid) with
      | none => .notFound
      | some room => .ok room

end Forked

/-- `handleLeaveRoom`, line-identical in both source variants.  The three
booleans model a failing store read / write / delete, each caught by the
code.  The `Bool` in the result is the `success` flag of the response; the
store component is the resulting store.  Removes the user from
`activeUsers`, deletes the room when that list empties, otherwise persists
the updated room. -/
def handleLeaveRoom (st : Store) (req : Option LeaveReq) (now : Nat)
    (readFails writeFails deleteFails : Bool) : Store × Bool :=
  match req with
  | none => (st, true)
  | some r =>
    match r.roomId, r.userId with
    | some roomId, some userId =>
      if roomId.isEmpty || userId.isEmpty then (st, true)
      else if readFails then (st, true)
      else
        match st.get (roomKey roomId) with
        | none => (st, true)
        | some room =>
          let remaining := (room.activeUsers.getD []).filter
            (fun u => u.id != userId)
          if remaining.isEmpty then
            (if deleteFails then st else st.del (roomKey roomId), true)
          else
            let room2 : Room :=
              { room with activeUsers := some remaining, lastUpdated := now }
            (if writeFails then st else st.put (roomKey roomId) room2, true)
    | _, _ => (st, true)

namespace Basic

/-- `handleCreateRoom` of `src/functions/collab.js`.  Validation rejects a
falsy `roomId`, `roomData` or `userId` only; a missing `snapshot` is
replaced by an empty object.  No existence check is made: an existing room
under the same key is silently overwritten.  No `userBranches` and no
creator entry in `activeUsers` are created. -/
def handleCreateRoom (st : Store) (req : Option CreateReq) (now : Nat) :
    Store × CreateOutcome :=
  match req with
  | none => (st, .emptyBody)
  | some r =>
    match r.roomId, r.roomData, r.userId with
    | some roomId, some rd, some userId =>
      if roomId.isEmpty || userId.isEmpty then (st, .missingParams)
      else
        let room : Room :=
          { id := rd.id
            name := rd.name
            method := rd.method
            createdBy := rd.createdBy
            createdByName := rd.createdByName
            snapshot := some (r.snapshot.getD { nodeMap := [] })
            userBranches := none
            activeUsers := rd.activeUsers
            operations := some []
            lastUpdated := now }
        (st.put (roomKey roomId) room, .created roomId room)
    | _, _, _ => (st, .missingParams)

/-- `handleSendOperation` of the basic variant: appends the operation with
server-assigned `timestamp`, `userId` and fresh id, truncating the log past
100 entries. -/
def handleSendOperation (st : Store) (req : Option SendOpReq) (now : Nat)
    (sfx : String) : Store × UpdateOutcome :=
  match req with
  | none => (st, .emptyBody)
  | some r =>
    match r.roomId, r.userId, r.operation with
    | some roomId, some userId, some p =>
      if roomId.isEmpty || userId.isEmpty then (st, .missingParams)
      else
        match st.get (roomKey roomId) with
        | none => (st, .notFound)
        | some room =>
          let ops := truncateOps ((room.operations.getD []) ++
            [mkLoggedOp p userId now sfx])
          let room2 : Room :=
            { room with operations := some ops, lastUpdated := now }
          (st.put (roomKey roomId) room2, .updated room2)
    | _, _, _ => (st, .missingParams)

end Basic

/-! ### Concrete instances used by witnesses and counterexamples -/

/-- An empty `roomData` payload: no metadata, no `activeUsers`. -/
def rdEmpty : RoomData :=
  { id := none, name := none, method := none, createdBy := none,
    createdByName := none, activeUsers := none }

/-- A `roomData` payload carrying an explicitly empty `activeUsers` list. -/
def rdNoUsers : RoomData := { rdEmpty with activeUsers := some [] }

/-- A one-node snapshot. -/
def snapA : Snapshot := { nodeMap := [("a", 1)] }

/-- A two-node snapshot. -/
def snapB : Snapshot := { nodeMap := [("a", 1), ("b", 2)] }

/-- The active-user entry of the host. -/
def hostUser : ActiveUser :=
  { id := "u1", name := "Alice", color := 0, region := "bj",
    joinedAt := "2026-01-01T00:00:00Z", isHost := true }

/-- An active-user entry for user `u2`, used to seed duplicates. -/
def dupUser : ActiveUser :=
  { id := "u2", name := "Bob", color := 1, region := "bj",
    joinedAt := "2026-01-02T00:00:00Z", isHost := false }

/-- A well-formed room with one active host user and one branch. -/
def roomW : Room :=
  { id := some "r1", name := some "w", method := none, createdBy := some "u1",
    createdByName := some "Alice",
    snapshot := some snapA,
    userBranches := some [("u1",
      { snapshot := some snapA, lastUpdated := 1, userName := some "Alice" })],
    activeUsers := some [hostUser],
    operations := some [],
    lastUpdated := 1 }

/-- A store holding `roomW` under `room:r1`. -/
def stW : Store := [(roomKey "r1", roomW)]

/-- Two logged operations, one per author. -/
def opU1 : Operation :=
  { fields := [("type", "add")], userId := "u1", timestamp := 5,
    opId := "op_5_aaa" }

/-- A second logged operation, authored by `u2`. -/
def opU2 : Operation :=
  { fields := [("type", "move")], userId := "u2", timestamp := 7,
    opId := "op_7_bbb" }

/-- `roomW` with a two-entry operation log. -/
def roomOps : Room := { roomW with operations := some [opU1, opU2] }

/-- A store holding `roomOps` under `room:r1`. -/
def stOps : Store := [(roomKey "r1", roomOps)]

/-- A payload whose caller tries to forge the server-assigned fields. -/
def forgedPayload : OpPayload :=
  { fields := [("type", "add")], userId := some "evil",
    timestamp := some 999999, opId := some "op_fake" }

/-- Store after the host creates room `r1` (copy-on-join scenario). -/
def stC1a : Store :=
  (Forked.handleCreateRoom [] (some
    { roomId := some "r1", roomData := some rdEmpty, snapshot := some snapA,
      userId := some "u1", userName := some "Alice" }) 1).1

/-- Store after `u2` joins room `r1`. -/
def stC1b : Store :=
  (Forked.handleJoinRoom stC1a (some
    { roomId := some "r1", userId := some "u2", userName := some "Bob",
      userData := none }) 2 "2026-01-02T00:00:00Z" 3).1

/-- Store after the host replaces their own branch snapshot. -/
def stC1c : Store :=
  (Forked.handleUpdateUserBranch stC1b (some
    { roomId := some "r1", userId := some "u1", snapshot := some snapB,
      operation := none }) 4 "zzz").1

/-- Store after creating `r1` with a `roomData` that already carries two
duplicate active-user entries for `u2`. -/
def stC4a : Store :=
  (Forked.handleCreateRoom [] (some
    { roomId := some "r1",
      roomData := some { rdEmpty with activeUsers := some [dupUser, dupUser] },
      snapshot := some snapA, userId := some "u1", userName := none }) 1).1

/-- Store after the first `join_room` of `u2` into that room. -/
def stC4b : Store :=
  (Forked.handleJoinRoom stC4a (some
    { roomId := some "r1", userId := some "u2", userName := none,
      userData := none }) 2 "2026-01-02T00:00:00Z" 0).1

/-- Store after the second, identical `join_room` of `u2`. -/
def stC4c : Store :=
  (Forked.handleJoinRoom stC4b (some
    { roomId := some "r1", userId := some "u2", userName := none,
      userData := none }) 3 "2026-01-02T00:00:00Z" 0).1

/-! ### Helper lemmas -/

theorem alget_alput_self {α : Type} (l : List (String × α)) (k : String)
    (v : α) : alget (alput l k v) k = some v := by
  induction l with
  | nil => simp [alget, alput]
  | cons hd t ih =>
    obtain ⟨k2, v2⟩ := hd
    by_cases hk : k2 = k
    · simp [alput, hk, alget]
    · simp [alput, hk, alget, ih]

theorem alget_alput_ne {α : Type} (l : List (String × α)) (k k2 : String)
    (v : α) (h : k2 ≠ k) : alget (alput l k v) k2 = alget l k2 := by
  induction l with
  | nil => simp [alget, alput, Ne.symm h]
  | cons hd t ih =>
    obtain ⟨k3, v3⟩ := hd
    by_cases hk : k3 = k
    · subst hk
      simp [alput, alget, Ne.symm h]
    · by_cases hk2 : k3 = k2
      · simp [alput, alget, hk, hk2, h]
      · simp [alput, alget, hk, hk2, ih]

theorem Store.get_put_self (st : Store) (k : String) (r : Room) :
    (st.put k r).get k = some r := alget_alput_self st k r

theorem Store.get_put_ne (st : Store) (k k2 : String) (r : Room)
    (h : k2 ≠ k) : (st.put k r).get k2 = st.get k2 := alget_alput_ne st k k2 r h

theorem Store.get_del_self (st : Store) (k : String) :
    (st.del k).get k = none := by
  induction st with
  | nil => rfl
  | cons hd t ih =>
    obtain ⟨k2, r⟩ := hd
    by_cases hk : k2 = k
    · simpa [Store.del, hk] using ih
    · simpa [Store.del, Store.get, alget, hk] using ih

theorem truncateOps_of_le (l : List Operation) (h : l.length ≤ 100) :
    truncateOps l = l := by
  rw [truncateOps, if_neg (by omega)]

theorem truncateOps_length (l : List Operation) (h : 100 < l.length) :
    (truncateOps l).length = 50 := by
  rw [truncateOps, if_pos h, List.length_drop]
  omega

theorem truncateOps_suffix (l : List Operation) :
    List.IsSuffix (truncateOps l) l := by
  by_cases h : 100 < l.length
  · rw [truncateOps, if_pos h]
    exact List.drop_suffix _ _
  · rw [truncateOps, if_neg h]

theorem truncateOps_getLast? (l : List Operation) :
    (truncateOps l).getLast? = l.getLast? := by
  by_cases h : 100 < l.length
  · rw [truncateOps, if_pos h, List.getLast?_drop, if_neg (by omega)]
  · rw [truncateOps, if_neg h]

theorem Forked.handleCreateRoom_ok (st : Store) (roomId userId : String)
    (rd : RoomData) (S : Snapshot) (uName : Option String) (now : Nat)
    (hrid : roomId.isEmpty = false) (huid : userId.isEmpty = false) :
    ∃ room : Room,
      Forked.handleCreateRoom st (some
        { roomId := some roomId, roomData := some rd, snapshot := some S,
          userId := some userId, userName := uName }) now
        = (st.put (roomKey roomId) room, .created roomId room) ∧
      room = { id := rd.id, name := rd.name, method := rd.method,
               createdBy := rd.createdBy, createdByName := rd.createdByName,
               snapshot := some S,
               userBranches := some [(userId,
                 { snapshot := some S, lastUpdated := now,
                   userName := uName })],
               activeUsers := rd.activeUsers, operations := some [],
               lastUpdated := now } := by
  refine ⟨_, ?_, rfl⟩
  simp [Forked.handleCreateRoom, hrid, huid]

theorem Forked.handleJoinRoom_found (st : Store) (roomId userId : String)
    (uN : Option String) (t : Nat) (iso : String) (c : Nat) (room : Room)
    (hrid : roomId.isEmpty = false) (huid : userId.isEmpty = false)
    (hfound : st.get (roomKey roomId) = some room) :
    ∃ (au : List ActiveUser) (room2 : Room),
      Forked.handleJoinRoom st (some
        { roomId := some roomId, userId := some userId, userName := uN,
          userData := none }) t iso c
        = (st.put (roomKey roomId) room2, .joined room2) ∧
      room2 = { room with
        userBranches := some (alput (room.userBranches.getD []) userId
          { snapshot := room.snapshot, lastUpdated := t,
            userName := some (strOr uN (defaultName userId)) }),
        activeUsers := some au,
        lastUpdated := t } ∧
      ((room.activeUsers.getD []).countP (fun u => u.id == userId) = 0 →
        au = (room.activeUsers.getD []) ++ [defaultJoinUser userId uN c iso]) ∧
      (0 < (room.activeUsers.getD []).countP (fun u => u.id == userId) →
        au = room.activeUsers.getD []) := by
  rcases hau : room.activeUsers with _ | l
  · refine ⟨[defaultJoinUser userId uN c iso], _, ?_, rfl, ?_, ?_⟩
    · simp [Forked.handleJoinRoom, hrid, huid, hfound, hau]
    · intro _
      simp [hau]
    · intro h
      simp at h
  · rcases hidx : l.findIdx? (fun u => u.id == userId) with _ | i
    · have hc0 : l.countP (fun u => u.id == userId) = 0 :=
        List.countP_eq_zero.mpr (by
          intro a ha
          simpa using List.findIdx?_eq_none_iff.mp hidx a ha)
      refine ⟨l ++ [defaultJoinUser userId uN c iso], _, ?_, rfl, ?_, ?_⟩
      · simp [Forked.handleJoinRoom, hrid, huid, hfound, hau, hidx]
      · intro _
        simp [hau]
      · intro hpos
        simp [hc0] at hpos
    · have hex : ∃ a ∈ l, (a.id == userId) = true := by
        by_contra hc
        have hnone : l.findIdx? (fun u => u.id == userId) = none :=
          List.findIdx?_eq_none_iff.mpr (by
            intro x hx
            by_contra hb
            exact hc ⟨x, hx, by simpa using hb⟩)
        exact Option.noConfusion (hnone.symm.trans hidx)
      have hpos : 0 < l.countP (fun u => u.id == userId) :=
        List.countP_pos_iff.mpr hex
      refine ⟨l, _, ?_, rfl, ?_, ?_⟩
      · simp [Forked.handleJoinRoom, hrid, huid, hfound, hau, hidx]
      · intro h0
        simp only [Option.getD_some] at h0
        omega
      · intro _
        simp [hau]

theorem Forked.handleUpdateUserBranch_found_noOp (st : Store)
    (roomId userId : String) (S : Snapshot) (now : Nat) (sfx : String)
    (room : Room) (hrid : roomId.isEmpty = false)
    (huid : userId.isEmpty = false)
    (hfound : st.get (roomKey roomId) = some room) :
    ∃ room2 : Room,
      Forked.handleUpdateUserBranch st (some
        { roomId := some roomId, userId := some userId, snapshot := some S,
          operation := none }) now sfx
        = (st.put (roomKey roomId) room2, .updated room2) ∧
      room2 = { room with
        userBranches := some (alput (room.userBranches.getD []) userId
          { snapshot := some S, lastUpdated := now,
            userName := some (strOr
              ((alget (room.userBranches.getD []) userId).bind
                (fun b => b.userName)) (defaultName userId)) }),
        operations := room.operations,
        lastUpdated := now } := by
  refine ⟨_, ?_, rfl⟩
  simp [Forked.handleUpdateUserBranch, hrid, huid, hfound]

theorem Forked.handleUpdateUserBranch_found_withOp (st : Store)
    (roomId userId : String) (S : Snapshot) (p : OpPayload) (now : Nat)
    (sfx : String) (room : Room) (hrid : roomId.isEmpty = false)
    (huid : userId.isEmpty = false)
    (hfound : st.get (roomKey roomId) = some room) :
    ∃ room2 : Room,
      Forked.handleUpdateUserBranch st (some
        { roomId := some roomId, userId := some userId, snapshot := some S,
          operation := some p }) now sfx
        = (st.put (roomKey roomId) room2, .updated room2) ∧
      room2 = { room with
        userBranches := some (alput (room.userBranches.getD []) userId
          { snapshot := some S, lastUpdated := now,
            userName := some (strOr
              ((alget (room.userBranches.getD []) userId).bind
                (fun b => b.userName)) (defaultName userId)) }),
        operations := some (truncateOps ((room.operations.getD []) ++
          [mkLoggedOp p userId now sfx])),
        lastUpdated := now } := by
  refine ⟨_, ?_, rfl⟩
  simp [Forked.handleUpdateUserBranch, hrid, huid, hfound]

theorem Basic.handleSendOperation_found (st : Store)
    (roomId userId : String) (p : OpPayload) (now : Nat) (sfx : String)
    (room : Room) (hrid : roomId.isEmpty = false)
    (huid : userId.isEmpty = false)
    (hfound : st.get (roomKey roomId) = some room) :
    ∃ room2 : Room,
      Basic.handleSendOperation st (some
        { roomId := some roomId, userId := some userId,
          operation := some p }) now sfx
        = (st.put (roomKey roomId) room2, .updated room2) ∧
      room2 = { room with
        operations := some (truncateOps ((room.operations.getD []) ++
          [mkLoggedOp p userId now sfx])),
        lastUpdated := now } := by
  refine ⟨_, ?_, rfl⟩
  simp [Basic.handleSendOperation, hrid, huid, hfound]

/-! ### Claim theorems -/

/-- C9: `leave_room` never reports failure: for every request shape (absent
body, missing `roomId` or `userId`, nonexistent room) and for every
combination of failing store read, write and delete, the handler — shared
verbatim by both source variants — returns the generic success response. -/
theorem C9_leave_never_fails (st : Store) (req : Option LeaveReq) (now : Nat)
    (readFails writeFails deleteFails : Bool) :
    (handleLeaveRoom st req now readFails writeFails deleteFails).2 = true := by
  rcases req with _ | ⟨_ | rid, _ | uid⟩
  · rfl
  · rfl
  · rfl
  · rfl
  · by_cases h1 : rid.isEmpty || uid.isEmpty
    · simp [handleLeaveRoom, h1]
    · cases readFails
      · cases hg : Store.get st (roomKey rid) with
        | none => simp [handleLeaveRoom, h1, hg]
        | some room =>
          by_cases h2 : ((room.activeUsers.getD []).filter
              (fun u => u.id != uid)).isEmpty
          · cases deleteFails <;> simp [handleLeaveRoom, h1, hg, h2]
          · cases writeFails <;> simp [handleLeaveRoom, h1, hg, h2]
      · simp [handleLeaveRoom, h1]

/-- C3 (amended): on success, the forking `create_room` persists a room
whose snapshot is the given one, whose `userBranches` holds exactly one
branch for the creator initialized to that snapshot, whose operation log is
empty — and whose `activeUsers` is exactly what the `roomData` of the caller
carried: the handler seeds no creator entry of its own. -/
theorem C3_create_room_contents (st : Store) (roomId userId : String)
    (rd : RoomData) (S : Snapshot) (uName : Option String) (now : Nat)
    (hrid : roomId.isEmpty = false) (huid : userId.isEmpty = false) :
    ∃ room : Room,
      Forked.handleCreateRoom st (some
        { roomId := some roomId, roomData := some rd, snapshot := some S,
          userId := some userId, userName := uName }) now
        = (st.put (roomKey roomId) room, .created roomId room) ∧
      (st.put (roomKey roomId) room).get (roomKey roomId) = some room ∧
      room.snapshot = some S ∧
      room.userBranches = some [(userId,
        { snapshot := some S, lastUpdated := now, userName := uName })] ∧
      room.operations = some [] ∧
      room.activeUsers = rd.activeUsers := by
  obtain ⟨room, he, hr⟩ :=
    Forked.handleCreateRoom_ok st roomId userId rd S uName now hrid huid
  subst hr
  exact ⟨_, he, Store.get_put_self _ _ _, rfl, rfl, rfl, rfl⟩

/-- C3 witness: the amended creation theorem evaluated at concrete
inputs. -/
theorem C3_create_room_contents_witness :
    ∃ room : Room,
      Forked.handleCreateRoom [] (some
        { roomId := some "r1", roomData := some rdEmpty,
          snapshot := some snapA, userId := some "u1",
          userName := some "Alice" }) 5
        = (Store.put [] (roomKey "r1") room, .created "r1" room) ∧
      (Store.put [] (roomKey "r1") room).get (roomKey "r1") = some room ∧
      room.snapshot = some snapA ∧
      room.userBranches = some [("u1",
        { snapshot := some snapA, lastUpdated := 5,
          userName := some "Alice" })] ∧
      room.operations = some [] ∧
      room.activeUsers = rdEmpty.activeUsers :=
  C3_create_room_contents [] "r1" "u1" rdEmpty snapA (some "Alice") 5
    (by decide) (by decide)

/-- C3 counterexample: `create_room` with a `roomData` carrying no
`activeUsers` persists a room with no active-user entry at all — not a room
whose `activeUsers` holds exactly one creator entry with `isHost = true`. -/
theorem C3_counterexample :
    ((Forked.handleCreateRoom [] (some
        { roomId := some "r1", roomData := some rdEmpty,
          snapshot := some snapA, userId := some "u1", userName := none })
        5).1.get (roomKey "r1")).map
      (fun r => (r.activeUsers.getD []).countP (fun u => u.id == "u1"))
      = some 0 := by rfl

/-- C2 (amended): `leave_room` by the last active user deletes the room key,
so a subsequent `get_room_info` fails with `notFound`; when active users
remain, the persisted room carries exactly the remaining nonempty list.  (A
room can still be *created* with zero active users when the supplied
`roomData` carries none, so the global empty-room invariant holds only on
the leave path.) -/
theorem C2_leave_last_deletes (st st2 : Store) (roomId userId : String)
    (room : Room) (now : Nat) (remaining : List ActiveUser)
    (hrid : roomId.isEmpty = false) (huid : userId.isEmpty = false)
    (hfound : st.get (roomKey roomId) = some room)
    (hrem : remaining = (room.activeUsers.getD []).filter
      (fun u => u.id != userId))
    (hst2 : st2 = (handleLeaveRoom st (some
      { roomId := some roomId, userId := some userId }) now
      false false false).1) :
    (remaining = [] →
      st2.get (roomKey roomId) = none ∧
      Forked.handleGetRoomInfo st2 (some roomId) = .notFound) ∧
    (remaining ≠ [] →
      st2.get (roomKey roomId) = some
        { room with activeUsers := some remaining, lastUpdated := now }) := by
  constructor
  · intro hempty
    have hdel : st2 = st.del (roomKey roomId) := by
      rw [hst2]
      simp [handleLeaveRoom, hrid, huid, hfound, ← hrem, hempty]
    rw [hdel]
    refine ⟨Store.get_del_self st (roomKey roomId), ?_⟩
    simp [Forked.handleGetRoomInfo, hrid, Store.get_del_self]
  · intro hne
    have hiE : remaining.isEmpty = false := by
      cases remaining
      · exact absurd rfl hne
      · rfl
    have hput : st2 = st.put (roomKey roomId)
        { room with activeUsers := some remaining, lastUpdated := now } := by
      rw [hst2]
      simp [handleLeaveRoom, hrid, huid, hfound, ← hrem, hiE]
    rw [hput]
    exact Store.get_put_self _ _ _

/-- C2 witness: the host is the only active user of `roomW`; leaving
deletes the key and `get_room_info` then reports `notFound`. -/
theorem C2_leave_last_deletes_witness :
    (handleLeaveRoom stW (some { roomId := some "r1", userId := some "u1" })
      9 false false false).1.get (roomKey "r1") = none ∧
    Forked.handleGetRoomInfo (handleLeaveRoom stW (some
      { roomId := some "r1", userId := some "u1" }) 9 false false false).1
      (some "r1") = .notFound :=
  (C2_leave_last_deletes stW _ "r1" "u1" roomW 9 []
    (by decide) (by decide) rfl (by decide) rfl).1 rfl

/-- C2 counterexample: one reachable operation — `create_room` with a
`roomData` whose `activeUsers` is the empty list — persists a room whose
active-user list has length 0, so the global empty-room invariant fails. -/
theorem C2_counterexample :
    ((Forked.handleCreateRoom [] (some
        { roomId := some "r1", roomData := some rdNoUsers,
          snapshot := some snapA, userId := some "u1", userName := none })
        5).1.get (roomKey "r1")).map
      (fun r => (r.activeUsers.getD []).length) = some 0 := by rfl

/-- C8 (amended): `create_room` with a `roomId` whose key already exists in
the store does not fail: it succeeds and silently overwrites the stored
room with the newly constructed one (last write wins; no existence
check). -/
theorem C8_create_overwrites (st : Store) (roomId userId : String)
    (rd : RoomData) (S : Snapshot) (uName : Option String) (now : Nat)
    (hrid : roomId.isEmpty = false) (huid : userId.isEmpty = false)
    (hexists : (st.get (roomKey roomId)).isSome = true) :
    ∃ room : Room,
      Forked.handleCreateRoom st (some
        { roomId := some roomId, roomData := some rd, snapshot := some S,
          userId := some userId, userName := uName }) now
        = (st.put (roomKey roomId) room, .created roomId room) ∧
      (st.put (roomKey roomId) room).get (roomKey roomId) = some room ∧
      room.snapshot = some S ∧
      room.lastUpdated = now ∧
      room.operations = some [] := by
  obtain ⟨room, he, hr⟩ :=
    Forked.handleCreateRoom_ok st roomId userId rd S uName now hrid huid
  subst hr
  exact ⟨_, he, Store.get_put_self _ _ _, rfl, rfl, rfl⟩

/-- C8 witness: the overwrite theorem applied to a store already holding
`room:r1`. -/
theorem C8_create_overwrites_witness :
    ∃ room : Room,
      Forked.handleCreateRoom stW (some
        { roomId := some "r1", roomData := some rdEmpty,
          snapshot := some snapB, userId := some "u3", userName := none }) 7
        = (stW.put (roomKey "r1") room, .created "r1" room) ∧
      (stW.put (roomKey "r1") room).get (roomKey "r1") = some room ∧
      room.snapshot = some snapB ∧
      room.lastUpdated = 7 ∧
      room.operations = some [] :=
  C8_create_overwrites stW "r1" "u3" rdEmpty snapB none 7
    (by decide) (by decide) rfl

/-- C8 counterexample: `room:r1` already holds `roomW` (`lastUpdated = 1`),
yet `create_room` for `r1` succeeds, and afterwards the stored room has
`lastUpdated = 7`: the prior state was clobbered rather than protected by
an `AlreadyExists` failure. -/
theorem C8_counterexample :
    (Forked.handleCreateRoom stW (some
      { roomId := some "r1", roomData := some rdEmpty, snapshot := some snapB,
        userId := some "u3", userName := none }) 7).2.isCreated = true ∧
    ((Forked.handleCreateRoom stW (some
      { roomId := some "r1", roomData := some rdEmpty, snapshot := some snapB,
        userId := some "u3", userName := none }) 7).1.get
        (roomKey "r1")).map (fun r => r.lastUpdated) = some 7 ∧
    (stW.get (roomKey "r1")).map (fun r => r.lastUpdated) = some 1 :=
  ⟨rfl, rfl, rfl⟩

/-- C7 (amended): both variants fail with the missing-parameter error and
persist nothing when `roomId`, `roomData` or `userId` is absent (or an
empty string, which JS also treats as missing); the forking variant
additionally fails when `snapshot` is absent, while the basic variant
substitutes an empty snapshot and succeeds. -/
theorem C7_missing_fields (st : Store) (now : Nat) (r : CreateReq) :
    ((falsyS r.roomId || r.roomData.isNone || falsyS r.userId) = true →
      Forked.handleCreateRoom st (some r) now = (st, .missingParams) ∧
      Basic.handleCreateRoom st (some r) now = (st, .missingParams)) ∧
    (r.snapshot = none →
      Forked.handleCreateRoom st (some r) now = (st, .missingParams)) ∧
    ((falsyS r.roomId || r.roomData.isNone || falsyS r.userId) = false →
      r.snapshot = none →
      ∃ (roomId2 : String) (room : Room),
        r.roomId = some roomId2 ∧
        Basic.handleCreateRoom st (some r) now
          = (st.put (roomKey roomId2) room, .created roomId2 room) ∧
        room.snapshot = some { nodeMap := [] }) := by
  obtain ⟨rid, rd, snap, uid, uname⟩ := r
  refine ⟨?_, ?_, ?_⟩
  · intro h
    rcases rid with _ | rid
    · exact ⟨rfl, rfl⟩
    · rcases rd with _ | rd
      · exact ⟨rfl, rfl⟩
      · rcases uid with _ | uid
        · exact ⟨rfl, rfl⟩
        · simp only [falsyS, Option.isNone_some, Bool.or_false,
            Bool.false_or, Bool.or_eq_true] at h
          rcases snap with _ | snap
          · constructor
            · rfl
            · rcases h with h | h <;> simp [Basic.handleCreateRoom, h]
          · constructor
            · rcases h with h | h <;> simp [Forked.handleCreateRoom, h]
            · rcases h with h | h <;> simp [Basic.handleCreateRoom, h]
  · intro hs
    subst hs
    rcases rid with _ | rid
    · rfl
    · rcases rd with _ | rd
      · rfl
      · rcases uid with _ | uid
        · rfl
        · rfl
  · intro h hs
    subst hs
    rcases rid with _ | rid
    · simp [falsyS] at h
    · rcases rd with _ | rd
      · simp [falsyS] at h
      · rcases uid with _ | uid
        · simp [falsyS] at h
        · simp only [falsyS, Option.isNone_some, Bool.or_false,
            Bool.false_or, Bool.or_eq_false_iff] at h
          obtain ⟨h1, h2⟩ := h
          refine ⟨rid, ({ id := rd.id, name := rd.name, method := rd.method, createdBy := rd.createdBy, createdByName := rd.createdByName, snapshot := some { nodeMap := [] }, userBranches := none, activeUsers := rd.activeUsers, operations := some [], lastUpdated := now } : Room), rfl, ?_, rfl⟩
          simp [Basic.handleCreateRoom, h1, h2]

/-- C7 witness: the amended theorem applied at two concrete requests — one
with `roomId` absent (both variants fail), one with only `snapshot` absent
(the forking variant fails). -/
theorem C7_missing_fields_witness :
    (Forked.handleCreateRoom [] (some
      { roomId := none, roomData := some rdEmpty, snapshot := some snapA,
        userId := some "u1", userName := none }) 5 = ([], .missingParams) ∧
     Basic.handleCreateRoom [] (some
      { roomId := none, roomData := some rdEmpty, snapshot := some snapA,
        userId := some "u1", userName := none }) 5 = ([], .missingParams)) ∧
    Forked.handleCreateRoom [] (some
      { roomId := some "r1", roomData := some rdEmpty, snapshot := none,
        userId := some "u1", userName := none }) 5 = ([], .missingParams) :=
  ⟨(C7_missing_fields [] 5
      { roomId := none, roomData := some rdEmpty, snapshot := some snapA,
        userId := some "u1", userName := none }).1 rfl,
   (C7_missing_fields [] 5
      { roomId := some "r1", roomData := some rdEmpty, snapshot := none,
        userId := some "u1", userName := none }).2.1 rfl⟩

/-- C7 counterexample: `create_room` of the basic variant with `snapshot`
absent (all other required fields present) does not fail with the
missing-field error — it succeeds and persists a room under the key. -/
theorem C7_counterexample :
    (Basic.handleCreateRoom [] (some
      { roomId := some "r1", roomData := some rdEmpty, snapshot := none,
        userId := some "u1", userName := none }) 5).2.isCreated = true ∧
    ((Basic.handleCreateRoom [] (some
      { roomId := some "r1", roomData := some rdEmpty, snapshot := none,
        userId := some "u1", userName := none }) 5).1.get
        (roomKey "r1")).isSome = true :=
  ⟨rfl, rfl⟩

/-- C1: copy-on-join.  Persisted state is value-semantic (each request
round-trips the room through JSON), so after `u2` joins, the stored branch
snapshot of `u2` equals the room snapshot of the host at join time; after
the
host later replaces their own branch snapshot — the only operation that
mutates any snapshot — the stored branch snapshot of the joiner is
unchanged
(and the host snapshot of the room itself is never mutated). -/
theorem C1_copy_on_join (st st1 st2 st3 : Store) (roomId u1 u2 : String)
    (rd : RoomData) (S S2 : Snapshot) (uName0 uName2 : Option String)
    (t1 t2 t3 : Nat) (iso : String) (c : Nat) (sfx : String)
    (hrid : roomId.isEmpty = false) (h1 : u1.isEmpty = false)
    (h2 : u2.isEmpty = false) (hne : u2 ≠ u1)
    (e1 : st1 = (Forked.handleCreateRoom st (some
      { roomId := some roomId, roomData := some rd, snapshot := some S,
        userId := some u1, userName := uName0 }) t1).1)
    (e2 : st2 = (Forked.handleJoinRoom st1 (some
      { roomId := some roomId, userId := some u2, userName := uName2,
        userData := none }) t2 iso c).1)
    (e3 : st3 = (Forked.handleUpdateUserBranch st2 (some
      { roomId := some roomId, userId := some u1, snapshot := some S2,
        operation := none }) t3 sfx).1) :
    ((st2.get (roomKey roomId)).bind
        (fun r => alget (r.userBranches.getD []) u2)).map
      (fun b => b.snapshot) = some (some S) ∧
    ((st3.get (roomKey roomId)).bind
        (fun r => alget (r.userBranches.getD []) u2)).map
      (fun b => b.snapshot) = some (some S) ∧
    (st3.get (roomKey roomId)).map (fun r => r.snapshot) = some (some S) := by
  obtain ⟨roomC, heC, hrC⟩ :=
    Forked.handleCreateRoom_ok st roomId u1 rd S uName0 t1 hrid h1
  have hget1 : st1.get (roomKey roomId) = some roomC := by
    rw [e1, heC]
    exact Store.get_put_self _ _ _
  obtain ⟨au, roomJ, heJ, hrJ, hj0, hjp⟩ :=
    Forked.handleJoinRoom_found st1 roomId u2 uName2 t2 iso c roomC
      hrid h2 hget1
  have hget2 : st2.get (roomKey roomId) = some roomJ := by
    rw [e2, heJ]
    exact Store.get_put_self _ _ _
  have hbJ : alget (roomJ.userBranches.getD []) u2 = some
      { snapshot := roomC.snapshot, lastUpdated := t2,
        userName := some (strOr uName2 (defaultName u2)) } := by
    rw [hrJ]
    simp [alget_alput_self]
  have hsnapC : roomC.snapshot = some S := by rw [hrC]
  obtain ⟨roomU, heU, hrU⟩ :=
    Forked.handleUpdateUserBranch_found_noOp st2 roomId u1 S2 t3 sfx roomJ
      hrid h1 hget2
  have hget3 : st3.get (roomKey roomId) = some roomU := by
    rw [e3, heU]
    exact Store.get_put_self _ _ _
  have hbU : alget (roomU.userBranches.getD []) u2
      = alget (roomJ.userBranches.getD []) u2 := by
    rw [hrU]
    simp [alget_alput_ne _ _ _ _ hne]
  have hsnapU : roomU.snapshot = roomJ.snapshot := by rw [hrU]
  have hsnapJ : roomJ.snapshot = roomC.snapshot := by rw [hrJ]
  refine ⟨?_, ?_, ?_⟩
  · rw [hget2]
    simp [hbJ, hsnapC]
  · rw [hget3]
    simp [hbU, hbJ, hsnapC]
  · rw [hget3]
    simp [hsnapU, hsnapJ, hsnapC]

/-- C1 witness: the copy-on-join theorem evaluated along the concrete
create → join → host-branch-update chain. -/
theorem C1_copy_on_join_witness :
    ((stC1b.get (roomKey "r1")).bind
        (fun r => alget (r.userBranches.getD []) "u2")).map
      (fun b => b.snapshot) = some (some snapA) ∧
    ((stC1c.get (roomKey "r1")).bind
        (fun r => alget (r.userBranches.getD []) "u2")).map
      (fun b => b.snapshot) = some (some snapA) ∧
    (stC1c.get (roomKey "r1")).map (fun r => r.snapshot)
      = some (some snapA) :=
  C1_copy_on_join [] stC1a stC1b stC1c "r1" "u1" "u2" rdEmpty snapA snapB
    (some "Alice") (some "Bob") 1 2 4 "2026-01-02T00:00:00Z" 3 "zzz"
    (by decide) (by decide) (by decide) (by decide) rfl rfl rfl

/-- C4 (amended): for an existing room whose `activeUsers` holds at most
one entry for `userId`, calling `join_room` twice with the same
`(roomId, userId)` and no `userData` override leaves `activeUsers` with
exactly one entry whose id is `userId`, and the second call leaves
`activeUsers` entirely unchanged (no duplicate entry, `joinedAt` not
reset). -/
theorem C4_join_idempotent (st : Store) (roomId userId : String)
    (room : Room) (uN1 uN2 : Option String) (t1 t2 : Nat)
    (iso1 iso2 : String) (c1 c2 : Nat)
    (hrid : roomId.isEmpty = false) (huid : userId.isEmpty = false)
    (hfound : st.get (roomKey roomId) = some room)
    (hcount : (room.activeUsers.getD []).countP
      (fun u => u.id == userId) ≤ 1) :
    ∃ room1 room2 : Room,
      (Forked.handleJoinRoom st (some
        { roomId := some roomId, userId := some userId, userName := uN1,
          userData := none }) t1 iso1 c1).2 = .joined room1 ∧
      (Forked.handleJoinRoom (Forked.handleJoinRoom st (some
          { roomId := some roomId, userId := some userId, userName := uN1,
            userData := none }) t1 iso1 c1).1 (some
        { roomId := some roomId, userId := some userId, userName := uN2,
          userData := none }) t2 iso2 c2).2 = .joined room2 ∧
      (room2.activeUsers.getD []).countP (fun u => u.id == userId) = 1 ∧
      room2.activeUsers = room1.activeUsers := by
  obtain ⟨au1, room1, he1, hr1, h0, hp⟩ :=
    Forked.handleJoinRoom_found st roomId userId uN1 t1 iso1 c1 room
      hrid huid hfound
  have hau1 : au1.countP (fun u => u.id == userId) = 1 := by
    rcases Nat.eq_zero_or_pos ((room.activeUsers.getD []).countP
        (fun u => u.id == userId)) with hz | hpos
    · rw [h0 hz]
      simp [hz, defaultJoinUser, List.countP_cons]
    · rw [hp hpos]
      omega
  have hget1 : (Forked.handleJoinRoom st (some
      { roomId := some roomId, userId := some userId, userName := uN1,
        userData := none }) t1 iso1 c1).1.get (roomKey roomId)
      = some room1 := by
    rw [he1]
    exact Store.get_put_self _ _ _
  have hau1r : room1.activeUsers.getD [] = au1 := by
    rw [hr1]
    rfl
  obtain ⟨au2, room2, he2, hr2, g0, gp⟩ :=
    Forked.handleJoinRoom_found _ roomId userId uN2 t2 iso2 c2 room1
      hrid huid hget1
  have hau2 : au2 = au1 := by
    have hupd := gp (by rw [hau1r, hau1]; omega)
    rw [hupd, hau1r]
  refine ⟨room1, room2, ?_, ?_, ?_, ?_⟩
  · rw [he1]
  · rw [he2]
  · rw [hr2]
    simp [hau2, hau1]
  · rw [hr2, hr1]
    simp [hau2]

/-- C4 witness: the amended idempotence theorem at concrete inputs over the
well-formed room `roomW`. -/
theorem C4_join_idempotent_witness :
    ∃ room1 room2 : Room,
      (Forked.handleJoinRoom stW (some
        { roomId := some "r1", userId := some "u2", userName := some "Bob",
          userData := none }) 2 "2026-01-02T00:00:00Z" 1).2
        = .joined room1 ∧
      (Forked.handleJoinRoom (Forked.handleJoinRoom stW (some
          { roomId := some "r1", userId := some "u2", userName := some "Bob",
            userData := none }) 2 "2026-01-02T00:00:00Z" 1).1 (some
        { roomId := some "r1", userId := some "u2", userName := some "Bobby",
          userData := none }) 3 "2026-01-03T00:00:00Z" 2).2
        = .joined room2 ∧
      (room2.activeUsers.getD []).countP (fun u => u.id == "u2") = 1 ∧
      room2.activeUsers = room1.activeUsers :=
  C4_join_idempotent stW "r1" "u2" roomW (some "Bob") (some "Bobby") 2 3
    "2026-01-02T00:00:00Z" "2026-01-03T00:00:00Z" 1 2
    (by decide) (by decide) rfl (by decide)

/-- C4 counterexample: a room created with two duplicate `u2` entries
supplied through `roomData` is reachable; after joining twice with
`(r1, u2)` the stored `activeUsers` holds two entries whose id is `u2`,
not exactly one. -/
theorem C4_counterexample :
    ((stC4c.get (roomKey "r1")).map
      (fun r => (r.activeUsers.getD []).countP (fun u => u.id == "u2")))
      = some 2 := by decide

/-- C5: operation-log truncation.  For both appending handlers —
`update_user_branch` of the forking variant and `send_operation` of the
basic variant — the stored log is the pushed log passed through
`truncateOps`; an append leaving at most 100 entries removes nothing, and
an append leaving more than 100 entries (in particular a 101st) cuts the
log to exactly its most recent 50 entries: a suffix of length 50 of the
pre-truncation log. -/
theorem C5_log_truncation (stA stB : Store) (roomId userId : String)
    (roomA roomB : Room) (S : Snapshot) (p q : OpPayload) (now : Nat)
    (sfx : String)
    (hrid : roomId.isEmpty = false) (huid : userId.isEmpty = false)
    (hA : stA.get (roomKey roomId) = some roomA)
    (hB : stB.get (roomKey roomId) = some roomB) :
    ∃ rA rB : Room,
      (Forked.handleUpdateUserBranch stA (some
        { roomId := some roomId, userId := some userId, snapshot := some S,
          operation := some p }) now sfx).2 = .updated rA ∧
      rA.operations = some (truncateOps ((roomA.operations.getD []) ++
        [mkLoggedOp p userId now sfx])) ∧
      (Basic.handleSendOperation stB (some
        { roomId := some roomId, userId := some userId,
          operation := some q }) now sfx).2 = .updated rB ∧
      rB.operations = some (truncateOps ((roomB.operations.getD []) ++
        [mkLoggedOp q userId now sfx])) ∧
      (∀ l : List Operation, l.length ≤ 100 → truncateOps l = l) ∧
      (∀ l : List Operation, 100 < l.length →
        (truncateOps l).length = 50 ∧ List.IsSuffix (truncateOps l) l) := by
  obtain ⟨rA, heA, hrA⟩ :=
    Forked.handleUpdateUserBranch_found_withOp stA roomId userId S p now sfx
      roomA hrid huid hA
  obtain ⟨rB, heB, hrB⟩ :=
    Basic.handleSendOperation_found stB roomId userId q now sfx roomB
      hrid huid hB
  refine ⟨rA, rB, by rw [heA], by rw [hrA], by rw [heB], by rw [hrB],
    fun l hl => truncateOps_of_le l hl,
    fun l hl => ⟨truncateOps_length l hl, truncateOps_suffix l⟩⟩

/-- C5 witness: the truncation theorem evaluated on the concrete store
`stOps`. -/
theorem C5_log_truncation_witness :
    ∃ rA rB : Room,
      (Forked.handleUpdateUserBranch stOps (some
        { roomId := some "r1", userId := some "u1", snapshot := some snapB,
          operation := some forgedPayload }) 9 "sfx").2 = .updated rA ∧
      rA.operations = some (truncateOps ((roomOps.operations.getD []) ++
        [mkLoggedOp forgedPayload "u1" 9 "sfx"])) ∧
      (Basic.handleSendOperation stOps (some
        { roomId := some "r1", userId := some "u1",
          operation := some forgedPayload }) 9 "sfx").2 = .updated rB ∧
      rB.operations = some (truncateOps ((roomOps.operations.getD []) ++
        [mkLoggedOp forgedPayload "u1" 9 "sfx"])) ∧
      (∀ l : List Operation, l.length ≤ 100 → truncateOps l = l) ∧
      (∀ l : List Operation, 100 < l.length →
        (truncateOps l).length = 50 ∧ List.IsSuffix (truncateOps l) l) :=
  C5_log_truncation stOps stOps "r1" "u1" roomOps roomOps snapB
    forgedPayload forgedPayload 9 "sfx" (by decide) (by decide) rfl rfl

theorem Forked.handleGetUpdates_found (st : Store) (rid uid : String)
    (lastSync now : Nat) (room : Room)
    (h1 : rid.isEmpty = false) (h2 : uid.isEmpty = false)
    (hfound : st.get (roomKey rid) = some room) :
    Forked.handleGetUpdates st (some rid) (some uid) lastSync now = .ok
      { updates := (room.operations.getD []).filter
          (fun op => decide (lastSync < op.timestamp) && op.userId != uid)
        branchSummaries := ((room.userBranches.getD []).filter
          (fun kv => kv.1 != uid)).map
          (fun kv => (kv.1,
            ({ userName := kv.2.userName
               lastUpdated := kv.2.lastUpdated
               nodeCount := nodeCount kv.2 } : BranchSummary)))
        users := room.activeUsers.getD []
        lastSync := now } := by
  simp [Forked.handleGetUpdates, h1, h2, hfound]

/-- C6: for an existing room, `get_updates` returns exactly the logged
operations whose timestamp is strictly greater than `lastSync` and whose
author differs from the caller, together with the current active-user list
and a fresh `lastSync` equal to the current server time. -/
theorem C6_get_updates_filter (st : Store) (rid uid : String) (room : Room)
    (lastSync now : Nat)
    (h1 : rid.isEmpty = false) (h2 : uid.isEmpty = false)
    (hfound : st.get (roomKey rid) = some room) :
    ∃ res : UpdatesResult,
      Forked.handleGetUpdates st (some rid) (some uid) lastSync now
        = .ok res ∧
      (∀ op : Operation, op ∈ res.updates ↔
        (op ∈ room.operations.getD [] ∧ lastSync < op.timestamp ∧
          op.userId ≠ uid)) ∧
      res.users = room.activeUsers.getD [] ∧
      res.lastSync = now := by
  refine ⟨_, Forked.handleGetUpdates_found st rid uid lastSync now room
    h1 h2 hfound, ?_, rfl, rfl⟩
  intro op
  simp [List.mem_filter, bne_iff_ne]

/-- C6 witness: the filter theorem evaluated on `stOps` for caller `u1`
with `lastSync = 4`. -/
theorem C6_get_updates_filter_witness :
    ∃ res : UpdatesResult,
      Forked.handleGetUpdates stOps (some "r1") (some "u1") 4 9 = .ok res ∧
      (∀ op : Operation, op ∈ res.updates ↔
        (op ∈ roomOps.operations.getD [] ∧ 4 < op.timestamp ∧
          op.userId ≠ "u1")) ∧
      res.users = roomOps.activeUsers.getD [] ∧
      res.lastSync = 9 :=
  C6_get_updates_filter stOps "r1" "u1" roomOps 4 9
    (by decide) (by decide) rfl

/-- C10: every record appended by `update_user_branch` / `send_operation`
carries the server-assigned timestamp, the `userId` of the request, and a
id of the form `op_<timestamp>_<suffix>`; these override any `userId`,
`timestamp` or `id` fields in the payload of the caller (which is
passed through), so a caller cannot forge authorship or timing. -/
theorem C10_server_assigned_fields (stA stB : Store) (roomId userId : String)
    (roomA roomB : Room) (S : Snapshot) (p q : OpPayload) (now : Nat)
    (sfx : String)
    (hrid : roomId.isEmpty = false) (huid : userId.isEmpty = false)
    (hA : stA.get (roomKey roomId) = some roomA)
    (hB : stB.get (roomKey roomId) = some roomB) :
    ∃ (rA rB : Room) (opsA opsB : List Operation),
      (Forked.handleUpdateUserBranch stA (some
        { roomId := some roomId, userId := some userId, snapshot := some S,
          operation := some p }) now sfx).2 = .updated rA ∧
      rA.operations = some opsA ∧
      opsA.getLast? = some
        { fields := p.fields, userId := userId, timestamp := now,
          opId := "op_" ++ toString now ++ "_" ++ sfx } ∧
      (Basic.handleSendOperation stB (some
        { roomId := some roomId, userId := some userId,
          operation := some q }) now sfx).2 = .updated rB ∧
      rB.operations = some opsB ∧
      opsB.getLast? = some
        { fields := q.fields, userId := userId, timestamp := now,
          opId := "op_" ++ toString now ++ "_" ++ sfx } := by
  obtain ⟨rA, heA, hrA⟩ :=
    Forked.handleUpdateUserBranch_found_withOp stA roomId userId S p now sfx
      roomA hrid huid hA
  obtain ⟨rB, heB, hrB⟩ :=
    Basic.handleSendOperation_found stB roomId userId q now sfx roomB
      hrid huid hB
  refine ⟨rA, rB,
    truncateOps ((roomA.operations.getD []) ++ [mkLoggedOp p userId now sfx]),
    truncateOps ((roomB.operations.getD []) ++ [mkLoggedOp q userId now sfx]),
    by rw [heA], by rw [hrA], ?_, by rw [heB], by rw [hrB], ?_⟩
  · rw [truncateOps_getLast?, List.getLast?_concat]
    rfl
  · rw [truncateOps_getLast?, List.getLast?_concat]
    rfl

/-- C10 witness: the override theorem evaluated with a payload that tries
to forge `userId`, `timestamp` and `id`. -/
theorem C10_server_assigned_fields_witness :
    ∃ (rA rB : Room) (opsA opsB : List Operation),
      (Forked.handleUpdateUserBranch stOps (some
        { roomId := some "r1", userId := some "u1", snapshot := some snapB,
          operation := some forgedPayload }) 9 "abc").2 = .updated rA ∧
      rA.operations = some opsA ∧
      opsA.getLast? = some
        { fields := forgedPayload.fields, userId := "u1", timestamp := 9,
          opId := "op_" ++ toString 9 ++ "_" ++ "abc" } ∧
      (Basic.handleSendOperation stOps (some
        { roomId := some "r1", userId := some "u1",
          operation := some forgedPayload }) 9 "abc").2 = .updated rB ∧
      rB.operations = some opsB ∧
      opsB.getLast? = some
        { fields := forgedPayload.fields, userId := "u1", timestamp := 9,
          opId := "op_" ++ toString 9 ++ "_" ++ "abc" } :=
  C10_server_assigned_fields stOps stOps "r1" "u1" roomOps roomOps snapB
    forgedPayload forgedPayload 9 "abc" (by decide) (by decide) rfl rfl
